import Mathlib

/-!
Verification of the `diet-ai-frontend` single-page application
(`src/App.tsx`) against its natural-language specification.

The component is shallowly embedded: React state is an explicit record,
the mount effect and the settling of the single fetch are pure state
transformers, and the JSX output relevant to the claims (banner, cards,
skeletons, total-items summary, price tag) is modelled as pure render
functions. JavaScript numbers appearing in the claims are modelled as
exact rationals; where a claim's behaviour depends on the binary64 value
of a decimal literal, that value is computed explicitly with IEEE-754
round-to-nearest-even on the appropriate binade.
-/

namespace DietAiFrontend

/-! ### Data model (`type Item` in App.tsx) -/

/-- Embedding of the `Item` record of `App.tsx`. Optional fields of the
TypeScript type become `Option`; `number` becomes `ℚ` (exact value of the
JavaScript number). -/
structure Item where
  id : String
  title : String
  finalPrice : ℚ
  calories : Option ℚ := none
  proteinGrams : Option ℚ := none
  discountPct : Option ℚ := none
  deriving Repr, DecidableEq

/-! ### JavaScript helpers -/

/-- JavaScript `a || b` for a possibly-absent string `a`: an absent value
and the empty string are falsy, any other string is truthy. -/
def jsOrStr (a : Option String) (b : String) : String :=
  match a with
  | some s => if s = "" then b else s
  | none => b

/-- Two-character fraction rendering of `n % 100` inside `toFixed(2)`:
a single digit is padded with a leading zero. -/
def twoDigits (fp : ℕ) : String :=
  if fp < 10 then "0" ++ toString fp else toString fp

/-! ### The ECMAScript `toFixed(2)` rendering used by `PriceTag`

`Number.prototype.toFixed(f)` picks the integer `n` for which
`n / 10^f - x` is closest to zero, choosing the larger `n` on a tie, and
prints `n` scaled with `f` fraction digits. For `x ≥ 0` that `n` is
`⌊x * 10^f + 1/2⌋`. The amounts rendered here are non-negative
(`finalPrice` is a non-negative decimal amount per the data model), so the
embedding handles that case. -/

/-- The integer `n` chosen by `toFixed(2)` for a non-negative number of
exact value `x`: the `n` with `n / 100` closest to `x`, the larger `n` on
a tie, which for `x ≥ 0` is `⌊100 x + 1/2⌋`. Computed directly on the
numerator and denominator of `x` so that proofs can evaluate it by kernel
reduction: `⌊100 x + 1/2⌋ = ⌊(200 num + den) / (2 den)⌋`. -/
def toFixedInt (x : ℚ) : ℤ :=
  Int.fdiv (200 * x.num + (x.den : ℤ)) (2 * (x.den : ℤ))

/-- String of `x.toFixed(2)` for a non-negative JavaScript number of exact
value `x`. -/
def toFixed2 (x : ℚ) : String :=
  let n : ℕ := (toFixedInt x).toNat
  toString (n / 100) ++ "." ++ twoDigits (n % 100)

/-- JavaScript string conversion of the numbers interpolated into the
discount badges. The discounts the specification exercises are integers,
which JavaScript prints as plain decimal integers; only that case is
rendered here. -/
def numToString (q : ℚ) : String :=
  if q.den = 1 then toString q.num else toString q

/-! ### `PriceTag` -/

/-- Observable output of the `PriceTag` component: the price text and the
optional discount badge text. -/
structure PriceTagView where
  priceText : String
  badge : Option String
  deriving Repr, DecidableEq

/-- Embedding of `PriceTag({ price, discount })`: renders
`$` followed by `price.toFixed(2)`, and the badge `-{discount}%` exactly
when `typeof discount === 'number' && discount > 0`. -/
def PriceTag (price : ℚ) (discount : Option ℚ) : PriceTagView :=
  { priceText := "$" ++ toFixed2 price
    badge :=
      match discount with
      | some d => if d > 0 then some ("-" ++ numToString d ++ "%") else none
      | none => none }

/-! ### IEEE-754 binary64 literal values -/

/-- Round a rational to the nearest integer, ties to even (the IEEE-754
default rounding). Computed on the numerator and denominator: with
`f = ⌊x⌋` and remainder numerator `rnum = num - f * den` (so the
fractional part is `rnum / den`), compare `2 * rnum` with `den`. -/
def roundHalfEven (x : ℚ) : ℤ :=
  let f := Int.fdiv x.num x.den
  let rnum := x.num - f * (x.den : ℤ)
  if 2 * rnum < (x.den : ℤ) then f
  else if (x.den : ℤ) < 2 * rnum then f + 1
  else if f % 2 = 0 then f else f + 1

/-- Exact value of rounding `x` to the binary64 grid of denominator `d`
(spacing `1 / d`), with round-to-nearest-even: `round(x * d) / d`. For a
normal double of magnitude in `[2^e, 2^(e+1))` the correct `d` is
`2^(52-e)`. -/
def fl64Grid (d : ℤ) (x : ℚ) : ℚ :=
  Rat.divInt (roundHalfEven (Rat.divInt (x.num * d) (x.den : ℤ))) d

/-- Exact value of the JavaScript number literal `9.995`. The literal
lies in `[2^3, 2^4)`, so the binary64 grid there has denominator
`2^(52-3) = 2^49`. -/
def jsNum9995 : ℚ := fl64Grid (2 ^ 49) (Rat.divInt 9995 1000)

/-! ### Theme (`useDarkMode`)

The browser environment the hook touches: presence of a `window` object,
the `localStorage` read (which the host may make throw), availability of
`window.matchMedia`, and the OS `prefers-color-scheme: dark` answer. -/

/-- Environment visible to the `useDarkMode` initializer. `storedTheme`
is the result of `localStorage.getItem('theme')`: either a thrown
exception (message) or `null` / a string. -/
structure ThemeEnv where
  hasWindow : Bool
  storedTheme : Except String (Option String)
  hasMatchMedia : Bool
  prefersDark : Bool
  deriving Repr

/-- Embedding of the `useState` initializer of `useDarkMode`:
`typeof window === 'undefined'` gives light; otherwise
`localStorage.getItem('theme')` is read (a thrown exception propagates —
there is no try/catch in the source); a truthy saved value resolves to
`saved === 'dark'`; otherwise
`window.matchMedia && window.matchMedia('(prefers-color-scheme: dark)').matches`. -/
def resolveInitialIsDark (env : ThemeEnv) : Except String Bool :=
  if env.hasWindow = false then .ok false
  else
    match env.storedTheme with
    | .error e => .error e
    | .ok (some s) =>
        if s ≠ "" then .ok (s == "dark")
        else .ok (env.hasMatchMedia && env.prefersDark)
    | .ok none => .ok (env.hasMatchMedia && env.prefersDark)

/-- Document state touched by the `useDarkMode` effect: whether the root
element carries the `dark` class, and the persisted `theme` entry. -/
structure Dom where
  darkClass : Bool
  storedValue : Option String
  deriving Repr, DecidableEq

/-- Embedding of the `useDarkMode` effect body on the success path: adds
or removes the `dark` class on the document root and writes
`'dark'` / `'light'` to `localStorage` under the key `theme`. It runs
after mount for the resolved initial value and again on every change of
`isDark`. -/
def applyTheme (isDark : Bool) (_d : Dom) : Dom :=
  { darkClass := isDark
    storedValue := some (if isDark then "dark" else "light") }

/-- Embedding of the `useDarkMode` effect body when `localStorage.setItem`
may throw: the class is toggled first; a write failure then propagates out
of the effect (there is no try/catch in the source), leaving the
previously persisted value in place. -/
def applyThemeE (setItemThrows : Bool) (isDark : Bool) (d : Dom) :
    Except String Dom :=
  let d1 : Dom := { d with darkClass := isDark }
  if setItemThrows then .error "setItem failed"
  else .ok { d1 with storedValue := some (if isDark then "dark" else "light") }

/-- Document state left behind by the `useDarkMode` effect whether or not
the storage write throws: the class toggle on the document root happens
first and always takes effect; if `localStorage.setItem` then throws, the
previously persisted value stays in place (stale), otherwise the matching
"dark"/"light" value is written. -/
def applyThemeDom (setItemThrows : Bool) (isDark : Bool) (d : Dom) : Dom :=
  if setItemThrows then { d with darkClass := isDark }
  else { darkClass := isDark
         storedValue := some (if isDark then "dark" else "light") }

/-! ### Fetch and view state (`App`)

`axios.get` resolves for 2xx responses and rejects for network errors and
non-2xx statuses, so a single constructor covers each side of the `try`.
On success `res.data.items || []` reads the `items` field of the body:
`none` models an absent or otherwise falsy value. -/

/-- Outcome of the single `axios.get` call. -/
inductive FetchResult where
  | ok (itemsField : Option (List Item))
  | err
  deriving Repr, DecidableEq

/-- React state of the `App` component. -/
structure ViewState where
  items : List Item
  loading : Bool
  error : Option String
  deriving Repr, DecidableEq

/-- Initial `useState` values of `App`:
`items = []`, `loading = false`, `error = null`. -/
def initialView : ViewState :=
  { items := [], loading := false, error := none }

/-- The synchronous head of the mount effect, run before the `await`:
`setLoading(true); setError(null)`. -/
def runMountEffect (s : ViewState) : ViewState :=
  { s with loading := true, error := none }

/-- Settling of the fetch: on success `setItems(res.data.items || [])`;
on failure the catch block sets the error banner text and leaves `items`
untouched; the `finally` block sets `loading` to false either way. The
catch converts every fetch-layer rejection into state, so nothing
propagates past the effect. -/
def settleFetch (r : FetchResult) (s : ViewState) : ViewState :=
  match r with
  | .ok itemsField => { s with items := itemsField.getD [], loading := false }
  | .err =>
      { s with error := some "Unable to load recommendations right now",
               loading := false }

/-- Complete lifecycle of the single fetch from mount: initial state,
then the mount effect, then the settled outcome `r`. -/
def mountAndSettle (r : FetchResult) : ViewState :=
  settleFetch r (runMountEffect initialView)

/-! ### Render functions (the JSX observed by the claims) -/

/-- Classification of a `ViewState` as the spec's view states: the JSX
branches on `loading` first (skeletons), and the error banner is shown
whenever `error` is non-null. -/
def stateLabel (s : ViewState) : String :=
  if s.loading then "Loading"
  else if s.error.isSome then "Error"
  else "Ready"

/-- Banner text rendered by `{error && <div ...>{error}</div>}`. -/
def renderedBanner (s : ViewState) : Option String := s.error

/-- Number of placeholder skeleton cards in the grid:
`loading && Array.from({ length: 6 })`. -/
def skeletonCount (s : ViewState) : ℕ := if s.loading then 6 else 0

/-- Item cards in the grid: `!loading && items.map(...)`. -/
def itemCards (s : ViewState) : List Item :=
  if s.loading then [] else s.items

/-- Text of the total-items summary: `Total items: {items.length}`. -/
def totalItemsText (s : ViewState) : String := toString s.items.length

/-! ### Request URL (`API` and the effect's `axios.get` argument) -/

/-- Embedding of `const API = import.meta.env.VITE_API_BASE ||
'http://localhost:4000'` over an environment mapping variable names to
optional values. -/
def API (env : String → Option String) : String :=
  jsOrStr (env "VITE_API_BASE") "http://localhost:4000"

/-- The one outbound request URL: the template literal passed to
`axios.get`, the base `API` followed by `/recommend/top?limit=8`. -/
def requestUrl (env : String → Option String) : String :=
  API env ++ "/recommend/top?limit=8"

/-- Base address as the claim words it (a second definition, following
the specification's words rather than the source, for comparison): the
environment variable `API_BASE` when set, else the default. -/
def claimedAPI (env : String → Option String) : String :=
  jsOrStr (env "API_BASE") "http://localhost:4000"

/-! ### Concrete inputs used by counterexamples and witnesses -/

/-- Environment with a window, a persisted empty-string theme value,
and an OS preference of dark. -/
def envEmptyStored : ThemeEnv :=
  { hasWindow := true, storedTheme := .ok (some ""),
    hasMatchMedia := true, prefersDark := true }

/-- Environment with a window whose storage read throws. -/
def envThrowingRead : ThemeEnv :=
  { hasWindow := true, storedTheme := .error "storage read failed",
    hasMatchMedia := false, prefersDark := false }

/-- Variable environment defining `API_BASE` (the name the claim uses)
and nothing else. -/
def envAPIonly : String → Option String :=
  fun k => if k = "API_BASE" then some "https://api.example.com" else none

/-- Variable environment defining `VITE_API_BASE` and nothing else. -/
def envVite : String → Option String :=
  fun k => if k = "VITE_API_BASE" then some "https://api.example.com" else none

/-! ### Helper lemmas -/

/-- Concatenation of strings is associative. -/
lemma string_append_assoc (a b c : String) : a ++ b ++ c = a ++ (b ++ c) := by
  cases a with
  | mk xa =>
    cases b with
    | mk xb =>
      cases c with
      | mk xc =>
        show String.mk (xa ++ xb ++ xc) = String.mk (xa ++ (xb ++ xc))
        rw [List.append_assoc]

/-- The fraction rendering of `toFixed(2)` always has exactly two
characters. -/
lemma twoDigits_length : ∀ fp : ℕ, fp < 100 → (twoDigits fp).length = 2 := by
  decide

/-! ### Claims -/

/-- Claim C1: for every failed fetch outcome (network error or non-2xx
status, both of which reject the `axios.get` promise), the view enters the
Error state showing exactly the banner message
"Unable to load recommendations right now", the items list stays empty so
the grid renders no cards, and the total-items summary reads 0; the catch
block converts the failure into state, so nothing propagates further up. -/
theorem C1_error_state :
    stateLabel (mountAndSettle .err) = "Error" ∧
    renderedBanner (mountAndSettle .err) =
      some "Unable to load recommendations right now" ∧
    (mountAndSettle .err).items = [] ∧
    itemCards (mountAndSettle .err) = [] ∧
    totalItemsText (mountAndSettle .err) = "0" :=
  ⟨rfl, rfl, rfl, rfl, rfl⟩

/-- Claim C2, counterexample: the claim says Loading is the initial
ViewState entered unconditionally at mount, but `loading` is initialized
to `false` by `useState(false)`, so the initial component state renders no
skeletons and is classified as an (empty) Ready view, not Loading. -/
theorem C2_counterexample :
    initialView.loading = false ∧ stateLabel initialView = "Ready" :=
  ⟨rfl, rfl⟩

/-- Claim C2, amended: Loading is not the literal initial state (the
first render is a non-loading empty grid) but is entered unconditionally
by the mount effect before the fetch settles; no item cards are ever
rendered before the fetch settles; and the only transitions out of
Loading are to Ready on success and to Error on failure. -/
theorem C2_loading_lifecycle :
    stateLabel (runMountEffect initialView) = "Loading" ∧
    skeletonCount (runMountEffect initialView) = 6 ∧
    itemCards initialView = [] ∧
    itemCards (runMountEffect initialView) = [] ∧
    (∀ body, stateLabel (mountAndSettle (.ok body)) = "Ready") ∧
    stateLabel (mountAndSettle .err) = "Error" :=
  ⟨rfl, rfl, rfl, rfl, fun _ => rfl, rfl⟩

/-- Claim C3: for every rendered item card, the discount badge is visible
if and only if `discountPct` is present and strictly positive (a value of
exactly 0 or an absent field suppresses it), and when visible it shows the
percentage with a leading minus sign, e.g. "-15%". -/
theorem C3_discount_badge :
    (∀ price d, ((PriceTag price (some d)).badge.isSome ↔ 0 < d)) ∧
    (∀ price, (PriceTag price none).badge = none) ∧
    (∀ price, (PriceTag price (some 0)).badge = none) ∧
    (∀ price, (PriceTag price (some 15)).badge = some "-15%") := by
  refine ⟨fun price d => ?_, fun price => rfl, fun price => rfl,
    fun price => rfl⟩
  simp only [PriceTag]
  by_cases h : d > 0
  · simp [h]
  · simp [h]

/-- Claim C4, counterexample: with a persisted empty-string value and an
OS preference of dark, resolution yields dark — yet the claim says a
persisted value other than "dark" yields light. The empty string is falsy
in the `if (saved)` guard and falls through to the OS preference. -/
theorem C4_counterexample :
    resolveInitialIsDark envEmptyStored = .ok true ∧
    envEmptyStored.storedTheme = .ok (some "") ∧
    some "" ≠ some "dark" :=
  ⟨rfl, rfl, by decide⟩

/-- Claim C4, amended: initial theme resolution follows the priority
chain, with the qualification that only a non-empty persisted value
counts as a stored choice: a persisted non-empty value yields dark
exactly when it equals "dark" (light for any other non-empty value); an
absent or empty-string persisted value falls to the OS color-scheme
preference; and without a windowing context the result is light. -/
theorem C4_theme_resolution :
    (∀ env : ThemeEnv, env.hasWindow = false →
        resolveInitialIsDark env = .ok false) ∧
    (∀ (env : ThemeEnv) (s : String), env.hasWindow = true →
        env.storedTheme = .ok (some s) → s ≠ "" →
        resolveInitialIsDark env = .ok (s == "dark")) ∧
    (∀ env : ThemeEnv, env.hasWindow = true → env.storedTheme = .ok none →
        resolveInitialIsDark env = .ok (env.hasMatchMedia && env.prefersDark)) ∧
    (∀ env : ThemeEnv, env.hasWindow = true →
        env.storedTheme = .ok (some "") →
        resolveInitialIsDark env = .ok (env.hasMatchMedia && env.prefersDark)) := by
  refine ⟨fun env hw => ?_, fun env s hw hs hne => ?_, fun env hw hs => ?_,
    fun env hw hs => ?_⟩
  · simp [resolveInitialIsDark, hw]
  · simp [resolveInitialIsDark, hw, hs]
    exact fun h => absurd h hne
  · simp [resolveInitialIsDark, hw, hs]
  · simp [resolveInitialIsDark, hw, hs]

/-- Witness for the amended C4: a persisted "dark" resolves to dark. -/
theorem C4_resolution_witness :
    resolveInitialIsDark
      { hasWindow := true, storedTheme := .ok (some "dark"),
        hasMatchMedia := false, prefersDark := false } = .ok true :=
  C4_theme_resolution.2.1
    { hasWindow := true, storedTheme := .ok (some "dark"),
      hasMatchMedia := false, prefersDark := false }
    "dark" rfl rfl (by decide)

/-- Claim C5: for every 2xx response whose body lacks an `items` field
(or carries a falsy value for it), the view transitions to Ready with an
empty item sequence — treated as zero results, not as an error, and zero
items is a valid Ready state (every success outcome lands in Ready). -/
theorem C5_missing_items_ready :
    (∀ b, stateLabel (mountAndSettle (.ok b)) = "Ready") ∧
    (mountAndSettle (.ok none)).items = [] ∧
    itemCards (mountAndSettle (.ok none)) = [] ∧
    renderedBanner (mountAndSettle (.ok none)) = none ∧
    totalItemsText (mountAndSettle (.ok none)) = "0" :=
  ⟨fun _ => rfl, rfl, rfl, rfl, rfl⟩

/-- Claim C6, counterexample: storage operations are not wrapped in any
try/catch in `useDarkMode`, so a throwing `localStorage.getItem`
propagates out of the initializer, and a throwing `localStorage.setItem`
propagates out of the persist effect — contradicting the claim that such
failures never propagate. -/
theorem C6_counterexample :
    resolveInitialIsDark envThrowingRead = .error "storage read failed" ∧
    applyThemeE true true { darkClass := false, storedValue := none } =
      .error "setItem failed" :=
  ⟨rfl, rfl⟩

/-- Claim C6, amended: theme storage exceptions are not caught: a read
failure during initialization propagates instead of falling to the next
priority tier, and a persist-time write failure propagates out of the
effect (after the visual class has already been toggled); only when no
exception is thrown does the effect behave as `applyTheme`. -/
theorem C6_storage_exceptions :
    (∀ (env : ThemeEnv) (e : String), env.hasWindow = true →
        env.storedTheme = .error e →
        resolveInitialIsDark env = .error e) ∧
    (∀ (isDark : Bool) (d : Dom),
        applyThemeE true isDark d = .error "setItem failed") ∧
    (∀ (isDark : Bool) (d : Dom),
        applyThemeE false isDark d = .ok (applyTheme isDark d)) := by
  refine ⟨fun env e hw hs => ?_, fun isDark d => rfl, fun isDark d => rfl⟩
  simp [resolveInitialIsDark, hw, hs]

/-- Witness for the amended C6: a concrete throwing read propagates. -/
theorem C6_storage_witness :
    resolveInitialIsDark envThrowingRead = .error "storage read failed" :=
  C6_storage_exceptions.1 envThrowingRead "storage read failed" rfl rfl

/-- Claim C7, counterexample: the claim says the persisted value, the
visual marker and the in-memory state never diverge, but the effect has
no try/catch: with in-memory state dark, a previously persisted "light"
and a throwing `localStorage.setItem`, the effect toggles the class and
then fails the write, leaving the persisted value "light" while marker
and memory say dark — the three diverge. -/
theorem C7_counterexample :
    (applyThemeDom true true
      { darkClass := false, storedValue := some "light" }).darkClass = true ∧
    (applyThemeDom true true
      { darkClass := false, storedValue := some "light" }).storedValue =
      some "light" ∧
    some "light" ≠ some "dark" :=
  ⟨rfl, rfl, by decide⟩

/-- Claim C7, amended: after every run of the theme effect — which runs
for the resolved initial value at mount and again on every change of
`isDark` — the `dark` class on the document root matches the in-memory
state, and whenever the storage write does not throw the persisted
"theme" value ("dark"/"light") matches it as well; if the write throws,
the persisted value is left stale while class and memory stay in step. -/
theorem C7_theme_sync :
    (∀ (isDark : Bool) (d : Dom),
        applyThemeE false isDark d = .ok (applyThemeDom false isDark d)) ∧
    (∀ (isDark : Bool) (d : Dom),
        (applyThemeDom false isDark d).darkClass = isDark ∧
        (applyThemeDom false isDark d).storedValue =
          some (if isDark then "dark" else "light")) ∧
    (∀ (isDark : Bool) (d : Dom),
        (applyThemeDom true isDark d).darkClass = isDark ∧
        (applyThemeDom true isDark d).storedValue = d.storedValue) :=
  ⟨fun _ _ => rfl, fun _ _ => ⟨rfl, rfl⟩, fun _ _ => ⟨rfl, rfl⟩⟩

/-- Claim C8, counterexample: in an environment where `API_BASE` (the
name the claim uses) is set but `VITE_API_BASE` is not, the code still
uses the default base — the recognized variable is `VITE_API_BASE`, not
`API_BASE`. -/
theorem C8_counterexample :
    API envAPIonly = "http://localhost:4000" ∧
    claimedAPI envAPIonly = "https://api.example.com" ∧
    API envAPIonly ≠ claimedAPI envAPIonly :=
  ⟨rfl, rfl, by decide⟩

/-- Claim C8, amended: the single outbound request is a GET to
`{base}/recommend/top` with `limit=8` as a query parameter, where base
is the environment variable `VITE_API_BASE` when set to a non-empty
value and defaults to `http://localhost:4000` otherwise (an empty value
is falsy and behaves like an unset variable). -/
theorem C8_request_url :
    (∀ env, requestUrl env = API env ++ "/recommend/top?limit=8") ∧
    (∀ env, env "VITE_API_BASE" = none →
        API env = "http://localhost:4000") ∧
    (∀ env, env "VITE_API_BASE" = some "" →
        API env = "http://localhost:4000") ∧
    (∀ env s, env "VITE_API_BASE" = some s → s ≠ "" → API env = s) := by
  refine ⟨fun env => rfl, fun env h => ?_, fun env h => ?_,
    fun env s h hne => ?_⟩ <;>
    simp [API, jsOrStr, h]
  exact fun h2 => absurd h2 hne

/-- Witness for the amended C8: a concrete non-empty `VITE_API_BASE`
overrides the default base. -/
theorem C8_url_witness :
    API envVite = "https://api.example.com" :=
  C8_request_url.2.2.2 envVite "https://api.example.com" rfl (by decide)

/-- Claim C9, counterexample: the claim says input 9.995 renders "10.00"
under standard rounding, but the JavaScript literal `9.995` denotes the
binary64 value `5626684784446013 / 2^49`, which is slightly below 9.995;
`toFixed(2)` rounds that exact stored value, giving "$9.99". -/
theorem C9_counterexample :
    (PriceTag jsNum9995 none).priceText = "$9.99" ∧
    jsNum9995 = Rat.divInt 5626684784446013 562949953421312 ∧
    "$9.99" ≠ "$10.00" := by
  refine ⟨rfl, by decide, by decide⟩

/-- Claim C9, amended: every rendered price string is a currency prefix
"$" followed by a number with exactly two fraction digits regardless of
the input's precision; input 9 renders "9.00"; the literal 9.995 renders
"9.99", because the binary64 value of the literal lies just below 9.995
(the exact decimal 9.995 would indeed round to "10.00" under the
half-up tie rule of `toFixed`). -/
theorem C9_price_two_decimals :
    (∀ (x : ℚ) (dis : Option ℚ), ∃ intPart fracPart : String,
        (PriceTag x dis).priceText = "$" ++ intPart ++ "." ++ fracPart ∧
        fracPart.length = 2) ∧
    (PriceTag 9 none).priceText = "$9.00" ∧
    (PriceTag jsNum9995 none).priceText = "$9.99" ∧
    toFixed2 (Rat.divInt 9995 1000) = "10.00" := by
  refine ⟨fun x dis => ?_, rfl, rfl, rfl⟩
  refine ⟨toString ((toFixedInt x).toNat / 100),
    twoDigits ((toFixedInt x).toNat % 100), ?_, ?_⟩
  · show "$" ++ toFixed2 x = _
    simp only [toFixed2, string_append_assoc]
  · exact twoDigits_length _ (Nat.mod_lt _ (by norm_num))

/-- Claim C10: if the persisted "theme" value exists but is the empty
string, initial theme resolution falls through to the OS color-scheme
preference — the empty string is falsy in the `if (saved)` guard, so it
is treated like an absent value rather than as a non-"dark" stored
choice resolving to light. -/
theorem C10_empty_string_fallthrough :
    ∀ env : ThemeEnv, env.hasWindow = true →
      env.storedTheme = .ok (some "") →
      resolveInitialIsDark env = .ok (env.hasMatchMedia && env.prefersDark) := by
  intro env hw hs
  simp [resolveInitialIsDark, hw, hs]

/-- Witness for C10: with a persisted empty string and a dark OS
preference, the resolved initial theme is dark. -/
theorem C10_fallthrough_witness :
    resolveInitialIsDark envEmptyStored = .ok true :=
  C10_empty_string_fallthrough envEmptyStored rfl rfl

end DietAiFrontend
